import Mathlib

/-!
Verification of the ASRA-GCS ground control station against its specification.

The development shallowly embeds the Python sources:
  * `src/mavlink_worker.py`   (MavlinkWorker: heartbeat watchdog, connect,
    disconnect, arm/disarm acknowledgement wait, message processing),
  * `src/drone_manager.py`    (DroneManager registry and DroneConnection),
  * `src/professional_gcs_map.py` (TileDownloadManager, the in-memory LRU
    tile cache, and the Web Mercator tile conversions).

Machine floats are embedded as `FloatVal` (a rational together with the
non-finite IEEE values) where validation logic inspects finiteness, and as
real numbers for the trigonometric tile conversions.  Time stamps are
rationals.  Python dictionaries become association lists, Python sets become
duplicate-free lists manipulated by membership-respecting operations.
-/

namespace AsraGcs

/-- Association-list lookup, embedding Python dict key access. -/
def alGet {κ α : Type} [DecidableEq κ] : List (κ × α) → κ → Option α
  | [], _ => none
  | (k2, v2) :: rest, k => if k2 = k then some v2 else alGet rest k

/-- Association-list write, embedding Python dict item assignment: an
existing key is overwritten in place, a new key is appended (dicts keep
insertion order). -/
def alSet {κ α : Type} [DecidableEq κ] : List (κ × α) → κ → α → List (κ × α)
  | [], k, v => [(k, v)]
  | (k2, v2) :: rest, k, v =>
      if k2 = k then (k, v) :: rest else (k2, v2) :: alSet rest k v

/-- Association-list delete, embedding Python `del d[k]`. -/
def alErase {κ α : Type} [DecidableEq κ] (l : List (κ × α)) (k : κ) :
    List (κ × α) :=
  l.filter (fun p => decide (p.1 ≠ k))

/-- Python `dict.update`: every key of `upd` is written into `base` in
order, other keys of `base` are untouched. -/
def dictUpdate {κ α : Type} [DecidableEq κ] (base upd : List (κ × α)) :
    List (κ × α) :=
  upd.foldl (fun acc p => alSet acc p.1 p.2) base

/-- An IEEE double as seen by the validation code: either a finite value
(embedded exactly as a rational) or one of the non-finite values. -/
inductive FloatVal
  | finite (q : ℚ)
  | nan
  | posInf
  | negInf
  deriving DecidableEq, Repr

/-- Embeds `math.isfinite`. -/
def FloatVal.isFinite : FloatVal → Bool
  | .finite _ => true
  | _ => false

/-- IEEE `<=` on doubles: any comparison with NaN is false. -/
def FloatVal.le : FloatVal → FloatVal → Bool
  | .nan, _ => false
  | _, .nan => false
  | .negInf, _ => true
  | .finite _, .posInf => true
  | .finite a, .finite b => decide (a ≤ b)
  | .finite _, .negInf => false
  | .posInf, .posInf => true
  | .posInf, _ => false

/-- IEEE `<` on doubles: any comparison with NaN is false. -/
def FloatVal.lt : FloatVal → FloatVal → Bool
  | .nan, _ => false
  | _, .nan => false
  | .negInf, .negInf => false
  | .negInf, _ => true
  | .finite _, .posInf => true
  | .finite a, .finite b => decide (a < b)
  | .finite _, .negInf => false
  | .posInf, _ => false

/-- The finite payload of a validated float (validation guarantees
finiteness before this is used). -/
def FloatVal.toQ : FloatVal → ℚ
  | .finite q => q
  | _ => 0

/-- IEEE absolute value. -/
def FloatVal.abs : FloatVal → FloatVal
  | .finite q => .finite |q|
  | .nan => .nan
  | .posInf => .posInf
  | .negInf => .posInf

/-- The exact rational value of the IEEE double `math.pi`. -/
def mathPi : ℚ := 884279719003555 / 281474976710656

/-- Events placed on the worker out-queue (`self._out_queue.put((tag, payload))`
in `mavlink_worker.py`).  Each constructor is one tag. -/
inductive Event
  | status (text : String)
  | error (text : String)
  | flightMode (mode : String)
  | statustext (text : String)
  | attitude (timestamp roll pitch yaw : ℚ)
  | vfrHud (timestamp airspeed groundspeed alt heading : ℚ)
  | gps (timestamp : ℚ) (fixType satellites : Int) (lat lon hdop vdop : ℚ)
  | gpsPos (timestamp lat lon alt : ℚ)
  | sysStatus (timestamp voltage current remaining : ℚ)
  | dataRate (mtype : String) (rate : ℚ)
  | debug (text : String)
  deriving DecidableEq, Repr

/-- Recognises the `vfr_hud` telemetry event. -/
def Event.isVfrHud : Event → Bool
  | .vfrHud _ _ _ _ _ => true
  | _ => false

/-- Recognises the plain `status` and `error` string events, the only kinds
of event that the arm/disarm command handler can emit. -/
def Event.isStatusOrError : Event → Bool
  | .status _ => true
  | .error _ => true
  | _ => false

/-- Control commands placed on the worker control queue by the public
`connect`, `disconnect`, `arm_disarm`, ... methods. -/
inductive WCommand
  | connect
  | disconnect
  | armDisarm
  | forceArm
  | setMode (modeId : Nat)
  | missionStart
  | abortLand
  deriving DecidableEq, Repr

/-- Inbound MAVLink messages, with exactly the fields the worker reads.
Float-typed fields are `FloatVal`, scaled-integer fields are `Int`. -/
inductive Message
  | heartbeat (baseMode customMode : Nat)
  | statustext (text : String)
  | attitude (roll pitch yaw : FloatVal)
  | vfrHud (airspeed groundspeed alt heading : FloatVal)
  | gpsRawInt (fixType satellitesVisible : Int) (lat lon : Int) (eph epv : Nat)
  | globalPositionInt (lat lon relativeAlt : Int)
  | sysStatus (voltageBattery currentBattery batteryRemaining : Int)
  | commandAck (command result : Nat)
  | other (mtype : String)
  deriving DecidableEq, Repr

/-- `msg.get_type()`. -/
def Message.typ : Message → String
  | .heartbeat _ _ => "HEARTBEAT"
  | .statustext _ => "STATUSTEXT"
  | .attitude _ _ _ => "ATTITUDE"
  | .vfrHud _ _ _ _ => "VFR_HUD"
  | .gpsRawInt _ _ _ _ _ _ => "GPS_RAW_INT"
  | .globalPositionInt _ _ _ => "GLOBAL_POSITION_INT"
  | .sysStatus _ _ _ => "SYS_STATUS"
  | .commandAck _ _ => "COMMAND_ACK"
  | .other t => t

/-- The open pymavlink connection object, reduced to the piece of state the
worker reads from it: the autopilot mode mapping used for `HEARTBEAT`. -/
structure ConnState where
  modeMapping : List (Nat × String)
  deriving DecidableEq, Repr

/-- The mutable state of `MavlinkWorker` (`mavlink_worker.py`). -/
structure WorkerState where
  conn : Option ConnState
  running : Bool
  device : Option String
  baud : Nat
  outQueue : List Event
  controlQueue : List WCommand
  lastHeartbeat : ℚ
  connected : Bool
  isArmed : Bool
  messageCounts : List (String × Nat)
  lastMessageTime : List (String × ℚ)
  dataRates : List (String × ℚ)
  deriving DecidableEq, Repr

/-- The state built by `MavlinkWorker.__init__` (standalone fallback
configuration: default baud 57600). -/
def initWorker : WorkerState :=
  { conn := none
    running := false
    device := none
    baud := 57600
    outQueue := []
    controlQueue := []
    lastHeartbeat := 0
    connected := false
    isArmed := false
    messageCounts := []
    lastMessageTime := []
    dataRates := [] }

namespace MavlinkWorker

/-- `HEARTBEAT_CHECK_INTERVAL_SEC = 1.0`. -/
def heartbeatCheckIntervalSec : ℚ := 1

/-- `HEARTBEAT_TIMEOUT` (config default 3.0 seconds). -/
def heartbeatTimeout : ℚ := 3

/-- `DATA_RATE_CALCULATION_INTERVAL_SEC = 5.0`. -/
def dataRateCalculationIntervalSec : ℚ := 5

/-- `MAV_CMD_COMPONENT_ARM_DISARM`. -/
def mavCmdComponentArmDisarm : Nat := 400

/-- `MAV_RESULT_ACCEPTED`. -/
def mavResultAccepted : Nat := 0

/-- `MAV_MODE_FLAG_SAFETY_ARMED`. -/
def mavModeFlagSafetyArmed : Nat := 128

/-- `MavlinkWorker.configure`. -/
def configure (w : WorkerState) (device : String) (baud : Nat) : WorkerState :=
  { w with device := some device, baud := baud }

/-- `MavlinkWorker.connect`: pushes the connect command on the control queue;
nothing else changes until the run loop processes it. -/
def connectCmd (w : WorkerState) : WorkerState :=
  { w with controlQueue := w.controlQueue ++ [WCommand.connect] }

/-- `MavlinkWorker.is_connected`. -/
def isConnected (w : WorkerState) : Bool :=
  w.connected

/-- The heartbeat-timeout watchdog inside one iteration of
`MavlinkWorker.run` (lines 123-134): at most once per check interval, a
connected worker whose last heartbeat is older than the timeout transitions
to disconnected and emits the error event followed by the Disconnected
status event.  Returns the new state and the new `last_heartbeat_check`. -/
def heartbeatCheck (w : WorkerState) (lastCheck t : ℚ) : WorkerState × ℚ :=
  if w.conn.isSome = true ∧ heartbeatCheckIntervalSec < t - lastCheck then
    (if w.connected = true ∧ heartbeatTimeout < t - w.lastHeartbeat then
      { w with
          connected := false
          outQueue := w.outQueue ++
            [Event.error "Heartbeat timeout - connection lost",
             Event.status "Disconnected"] }
     else w, t)
  else (w, lastCheck)

/-- Iterated run-loop iterations restricted to the watchdog, for a link that
receives no inbound messages at all: each element of the list is the wall
clock time of one loop iteration. -/
def runHeartbeatChecks (w : WorkerState) (lastCheck : ℚ) :
    List ℚ → WorkerState × ℚ
  | [] => (w, lastCheck)
  | t :: ts =>
      let p := heartbeatCheck w lastCheck t
      runHeartbeatChecks p.1 p.2 ts

/-- `MavlinkWorker._do_disconnect`: clears the connection and the connected
flag, closes the link and emits the Disconnected status (the close itself
succeeding). -/
def doDisconnect (w : WorkerState) : WorkerState :=
  { w with
      conn := none
      connected := false
      outQueue := w.outQueue ++ [Event.status "Disconnected"] }

/-- `MavlinkWorker.stop` (lines 152-154): sets `_running` to False and then
runs `_do_disconnect` synchronously; it does not wait for the run loop. -/
def stop (w : WorkerState) : WorkerState :=
  doDisconnect { w with running := false }

/-- The sequence of actions `MavlinkWorker.stop` performs, in source order;
the method body is `self._running = False` followed by
`self._do_disconnect()` and contains no `join`/wait on the thread. -/
inductive StopAction
  | setRunningFalse
  | doDisconnectCall
  | joinThread
  deriving DecidableEq, Repr

/-- The action trace of `MavlinkWorker.stop`. -/
def stopActions : List StopAction :=
  [StopAction.setRunningFalse, StopAction.doDisconnectCall]

/-- `MavlinkWorker._do_connect`, with the network abstracted: `result` is
`some c` when `mavlink_connection` plus `wait_heartbeat` succeed and yield a
link with mode mapping `c`, and `none` when they raise.  `t` is the wall
clock time of the success. -/
def doConnect (w : WorkerState) (t : ℚ) (result : Option ConnState) :
    WorkerState :=
  match w.device with
  | none => { w with outQueue := w.outQueue ++ [Event.error "No device configured"] }
  | some dev =>
      let w1 := { w with outQueue := w.outQueue ++
        [Event.status ("Connecting to " ++ dev)] }
      match result with
      | some c =>
          { w1 with
              conn := some c
              connected := true
              lastHeartbeat := t
              outQueue := w1.outQueue ++ [Event.status "Connected"] }
      | none =>
          { w1 with
              conn := none
              connected := false
              outQueue := w1.outQueue ++ [Event.error "Connection failed"] }

/-- `recv_match(type='COMMAND_ACK', blocking=True, timeout=...)`: reads and
discards inbound messages until one whose type is COMMAND_ACK arrives; the
argument list holds every message that arrives inside the timeout window, so
an exhausted list is the timeout returning None.  Returns the matched
message, if any, and the part of the stream that was not consumed. -/
def recvMatchAck : List Message → Option Message × List Message
  | [] => (none, [])
  | m :: rest =>
      if m.typ = "COMMAND_ACK" then (some m, rest) else recvMatchAck rest

/-- `MavlinkWorker._do_arm_disarm`: sends the command, then blocks on
`recvMatchAck` over the inbound stream; every message consumed during the
wait is gone from the stream and only status/error events are emitted.
Returns the new worker state and the unconsumed rest of the stream. -/
def doArmDisarm (w : WorkerState) (force : Bool) (stream : List Message) :
    WorkerState × List Message :=
  match w.conn with
  | none => ({ w with outQueue := w.outQueue ++ [Event.error "Not connected"] }, stream)
  | some _ =>
      let sendEvt : Event :=
        if w.isArmed then Event.status "Sending Disarm command..."
        else if force then Event.status "Sending Force Arm command..."
        else Event.status "Sending Arm command..."
      let w1 := { w with outQueue := w.outQueue ++ [sendEvt] }
      match recvMatchAck stream with
      | (some (Message.commandAck cmd result), rest) =>
          if cmd = mavCmdComponentArmDisarm then
            if result = mavResultAccepted then
              ({ w1 with outQueue := w1.outQueue ++
                 [Event.status "Arm/Disarm command accepted by FCU."] }, rest)
            else
              ({ w1 with outQueue := w1.outQueue ++
                 [Event.error "Arm/Disarm command rejected"] }, rest)
          else
            ({ w1 with outQueue := w1.outQueue ++
               [Event.error "No acknowledgment for Arm/Disarm command."] }, rest)
      | (_, rest) =>
          ({ w1 with outQueue := w1.outQueue ++
             [Event.error "No acknowledgment for Arm/Disarm command."] }, rest)

/-- The message types whose data rate is reported on the out-queue. -/
def criticalTypes : List String := ["ATTITUDE", "VFR_HUD", "GPS_RAW_INT"]

/-- The message-rate bookkeeping at the top of
`MavlinkWorker._process_message` (lines 316-334). -/
def trackRate (w : WorkerState) (t : ℚ) (mtype : String) : WorkerState :=
  let cts :=
    match alGet w.messageCounts mtype with
    | none => (alSet w.messageCounts mtype 0, alSet w.lastMessageTime mtype t)
    | some _ => (w.messageCounts, w.lastMessageTime)
  let counts1 : List (String × Nat) :=
    alSet cts.1 mtype ((alGet cts.1 mtype).getD 0 + 1)
  let tlast := (alGet cts.2 mtype).getD t
  if dataRateCalculationIntervalSec < t - tlast then
    let rate : ℚ := (((alGet counts1 mtype).getD 0 : Nat) : ℚ) / (t - tlast)
    { w with
        messageCounts := alSet counts1 mtype 0
        lastMessageTime := alSet cts.2 mtype t
        dataRates := alSet w.dataRates mtype rate
        outQueue := w.outQueue ++
          (if mtype ∈ criticalTypes then [Event.dataRate mtype rate] else []) }
  else
    { w with messageCounts := counts1, lastMessageTime := cts.2 }

/-- `MavlinkWorker._process_message` at wall clock time `t`: rate tracking
followed by the per-type validation and event emission. -/
def processMessage (w0 : WorkerState) (t : ℚ) (msg : Message) : WorkerState :=
  let w := trackRate w0 t msg.typ
  match msg with
  | .heartbeat baseMode customMode =>
      let w1 := { w with
        lastHeartbeat := t
        isArmed := decide ((baseMode &&& mavModeFlagSafetyArmed) ≠ 0) }
      match w1.conn with
      | some c =>
          if c.modeMapping ≠ [] then
            match alGet c.modeMapping customMode with
            | some mode => { w1 with outQueue := w1.outQueue ++ [Event.flightMode mode] }
            | none => w1
          else w1
      | none => w1
  | .statustext text =>
      { w with outQueue := w.outQueue ++ [Event.statustext text] }
  | .attitude roll pitch yaw =>
      if roll.isFinite && pitch.isFinite && yaw.isFinite &&
         FloatVal.le roll.abs (.finite mathPi) &&
         FloatVal.le pitch.abs (.finite mathPi) &&
         FloatVal.le yaw.abs (.finite mathPi) then
        { w with outQueue := w.outQueue ++
          [Event.attitude t roll.toQ pitch.toQ yaw.toQ] }
      else w
  | .vfrHud airspeed groundspeed alt heading =>
      if airspeed.isFinite && groundspeed.isFinite && alt.isFinite &&
         heading.isFinite &&
         FloatVal.le (.finite 0) airspeed && FloatVal.le (.finite 0) groundspeed &&
         FloatVal.le (.finite 0) heading && FloatVal.le heading (.finite 360) then
        { w with outQueue := w.outQueue ++
          [Event.vfrHud t airspeed.toQ groundspeed.toQ alt.toQ heading.toQ] }
      else w
  | .gpsRawInt fixType satellitesVisible lat lon eph epv =>
      if 0 ≤ fixType ∧ 0 ≤ satellitesVisible then
        let latQ : ℚ := (lat : ℚ) / 10000000
        let lonQ : ℚ := (lon : ℚ) / 10000000
        let hdop : ℚ := if eph ≠ 65535 then (eph : ℚ) / 100 else -1
        let vdop : ℚ := if epv ≠ 65535 then (epv : ℚ) / 100 else -1
        if -90 ≤ latQ ∧ latQ ≤ 90 ∧ -180 ≤ lonQ ∧ lonQ ≤ 180 then
          { w with outQueue := w.outQueue ++
            [Event.gps t fixType satellitesVisible latQ lonQ hdop vdop] }
        else w
      else w
  | .globalPositionInt lat lon relativeAlt =>
      let latQ : ℚ := (lat : ℚ) / 10000000
      let lonQ : ℚ := (lon : ℚ) / 10000000
      let altQ : ℚ := (relativeAlt : ℚ) / 1000
      if -90 ≤ latQ ∧ latQ ≤ 90 ∧ -180 ≤ lonQ ∧ lonQ ≤ 180 then
        { w with outQueue := w.outQueue ++ [Event.gpsPos t latQ lonQ altQ] }
      else w
  | .sysStatus voltageBattery currentBattery batteryRemaining =>
      let voltage : ℚ := (voltageBattery : ℚ) / 1000
      let current : ℚ := (currentBattery : ℚ) / 100
      let remaining : ℚ := (batteryRemaining : ℚ)
      if 0 ≤ voltage ∧ -100 ≤ current ∧ 0 ≤ remaining ∧ remaining ≤ 100 then
        { w with outQueue := w.outQueue ++
          [Event.sysStatus t voltage current remaining] }
      else w
  | .commandAck _ _ =>
      { w with outQueue := w.outQueue ++ [Event.debug "COMMAND_ACK"] }
  | .other mtype =>
      { w with outQueue := w.outQueue ++ [Event.debug mtype] }

end MavlinkWorker

/-- Modelled from the spec (section on message validation, mirroring the
VFR_HUD sentence word for word): the claimed validity predicate with the
heading constrained to the half-open interval `[0, 360)`.  This is the
spec-side predicate, to be compared with the source-side condition inside
`MavlinkWorker.processMessage`. -/
def vfrHudClaimedValid (airspeed groundspeed alt heading : FloatVal) : Bool :=
  airspeed.isFinite && groundspeed.isFinite && alt.isFinite &&
  heading.isFinite &&
  FloatVal.le (.finite 0) airspeed && FloatVal.le (.finite 0) groundspeed &&
  FloatVal.le (.finite 0) heading && FloatVal.lt heading (.finite 360)

/-- A Python value stored in a telemetry field. -/
inductive TValue
  | num (q : ℚ)
  | str (s : String)
  | bool (b : Bool)
  deriving DecidableEq, Repr

/-- A value stored under one key of `DroneConnection.telemetry`: either a
nested dict (the per-category record) or a plain value (`flight_mode`,
`last_update`). -/
inductive TEntry
  | record (fields : List (String × TValue))
  | plain (v : TValue)
  deriving DecidableEq, Repr

/-- The default telemetry dict built by `DroneConnection.__post_init__`. -/
def defaultTelemetry : List (String × TEntry) :=
  [("attitude", .record [("roll", .num 0), ("pitch", .num 0), ("yaw", .num 0)]),
   ("position", .record [("lat", .num 0), ("lon", .num 0), ("alt", .num 0)]),
   ("gps", .record [("fix_type", .num 0), ("satellites", .num 0),
                 ("hdop", .num 0), ("vdop", .num 0)]),
   ("battery", .record [("voltage", .num 0), ("current", .num 0),
                     ("remaining", .num (-1))]),
   ("flight_mode", .plain (.str "Unknown")),
   ("last_update", .plain (.num 0))]

/-- `DroneConnection` (`drone_manager.py`): one registry entry, holding the
per-drone MAVLink worker state. -/
structure DroneConnection where
  droneId : String
  name : String
  port : String
  baud : Nat
  worker : WorkerState
  color : String
  connected : Bool
  armed : TValue
  telemetry : List (String × TEntry)
  deriving DecidableEq, Repr

/-- `DroneManager` registry state: the drones dict keyed by drone id, the
capacity bound and the id counter. -/
structure DroneManager where
  maxDrones : Nat
  drones : List (String × DroneConnection)
  nextDroneNumber : Nat
  deriving DecidableEq, Repr

namespace DroneManager

/-- `DroneManager.DEFAULT_COLORS`. -/
def defaultColors : List String :=
  ["#FF0000", "#0000FF", "#00FF00", "#FFFF00", "#FF00FF", "#00FFFF"]

/-- `DroneManager.__init__` (default capacity 2). -/
def mkDroneManager (maxDrones : Nat) : DroneManager :=
  { maxDrones := maxDrones, drones := [], nextDroneNumber := 1 }

/-- `DroneManager.add_drone`: rejects when the registry is full (returning
no id and leaving every field untouched); otherwise allocates the next id,
advances the counter, derives the device and display name from the port
string, assigns a colour, creates a configured worker and stores the new
entry. -/
def addDrone (m : DroneManager) (port : String) (baud : Nat)
    (name : Option String) : Option String × DroneManager :=
  if m.maxDrones ≤ m.drones.length then (none, m)
  else
    let droneId := "drone_" ++ toString m.nextDroneNumber
    let device := (port.splitOn " - ").headD port
    let name1 := name.getD device
    let color := defaultColors.getD (m.drones.length % defaultColors.length) ""
    let worker := MavlinkWorker.configure initWorker device baud
    let drone : DroneConnection :=
      { droneId := droneId
        name := name1
        port := port
        baud := baud
        worker := worker
        color := color
        connected := false
        armed := TValue.bool false
        telemetry := defaultTelemetry }
    (some droneId,
     { m with
         nextDroneNumber := m.nextDroneNumber + 1
         drones := m.drones ++ [(droneId, drone)] })

/-- `DroneManager.remove_drone`: drops the registry entry when present. -/
def removeDrone (m : DroneManager) (droneId : String) : Bool × DroneManager :=
  match alGet m.drones droneId with
  | none => (false, m)
  | some _ => (true, { m with drones := alErase m.drones droneId })

/-- `DroneManager.connect_drone` (lines 161-193): starts the worker thread
if needed, enqueues the connect command on the worker control queue, and
immediately sets the registry connected flag to True, before the worker has
processed the command. -/
def connectDrone (m : DroneManager) (droneId : String) :
    DroneManager × Bool :=
  match alGet m.drones droneId with
  | none => (m, false)
  | some drone =>
      let w0 := if drone.worker.running then drone.worker
                else { drone.worker with running := true }
      let w1 := MavlinkWorker.connectCmd w0
      let drone1 := { drone with worker := w1, connected := true }
      ({ m with drones := alSet m.drones droneId drone1 }, true)

/-- `DroneManager.disconnect_drone`: enqueues the disconnect command and
clears the registry connected and armed flags. -/
def disconnectDrone (m : DroneManager) (droneId : String) :
    DroneManager × Bool :=
  match alGet m.drones droneId with
  | none => (m, false)
  | some drone =>
      let w1 := { drone.worker with
        controlQueue := drone.worker.controlQueue ++ [WCommand.disconnect] }
      let drone1 := { drone with
        worker := w1, connected := false, armed := TValue.bool false }
      ({ m with drones := alSet m.drones droneId drone1 }, true)

/-- `DroneManager.can_add_drone`. -/
def canAddDrone (m : DroneManager) : Bool :=
  decide (m.drones.length < m.maxDrones)

/-- `DroneManager.get_drone_count`. -/
def getDroneCount (m : DroneManager) : Nat :=
  m.drones.length

/-- `DroneManager.update_telemetry`: merges `data` into the stored category
record via `dict.update` when the category exists as a dict, creates the
category when absent, and updates the armed flag for status messages.
Returns `none` exactly when the Python code would raise (calling `.update`
on a non-dict stored value). -/
def updateTelemetry (m : DroneManager) (droneId : String) (msgType : String)
    (data : List (String × TValue)) : Option DroneManager :=
  match alGet m.drones droneId with
  | none => some m
  | some drone =>
      let telem? : Option (List (String × TEntry)) :=
        match alGet drone.telemetry msgType with
        | some (TEntry.record fields) =>
            some (alSet drone.telemetry msgType (TEntry.record (dictUpdate fields data)))
        | some (TEntry.plain _) => none
        | none => some (alSet drone.telemetry msgType (TEntry.record data))
      match telem? with
      | none => none
      | some telem =>
          let drone1 := { drone with telemetry := telem }
          let drone2 :=
            if msgType = "status" then
              match alGet data "armed" with
              | some v => { drone1 with armed := v }
              | none => drone1
            else drone1
          some { m with drones := alSet m.drones droneId drone2 }

/-- `DroneManager.get_telemetry` for a specific message type. -/
def getTelemetry (m : DroneManager) (droneId : String) (msgType : String) :
    Option TEntry :=
  match alGet m.drones droneId with
  | none => none
  | some drone => alGet drone.telemetry msgType

/-- The registry after `k` successive `add_drone` calls starting from the
empty registry with capacity `maxDrones`. -/
def addDroneIter (maxDrones : Nat) : Nat → DroneManager
  | 0 => mkDroneManager maxDrones
  | k + 1 => (addDrone (addDroneIter maxDrones k) "COM3" 57600 none).2

end DroneManager

/-- A tile cache key `(provider, z, x, y)`. -/
structure TileKey where
  provider : String
  z : Nat
  x : Nat
  y : Nat
  deriving DecidableEq, Repr

/-- `TileDownloadManager` (`professional_gcs_map.py`), reduced to its
download bookkeeping: the pending queue, the in-flight deduplication set
(a duplicate-free list), the keys present in the persistent cache, the
hit/miss counters, the emitted `tile_ready` signals and the downloads that
the run loop has submitted. -/
structure TileDownloadManager where
  downloadQueue : List TileKey
  activeDownloads : List TileKey
  persistentCacheKeys : List TileKey
  cacheHits : Nat
  cacheMisses : Nat
  tileReadyEvents : List TileKey
  fetchesStarted : List TileKey
  deriving DecidableEq, Repr

namespace TileDownloadManager

/-- `TileDownloadManager.__init__` with persistent cache contents `cached`. -/
def mkManager (cached : List TileKey) : TileDownloadManager :=
  { downloadQueue := []
    activeDownloads := []
    persistentCacheKeys := cached
    cacheHits := 0
    cacheMisses := 0
    tileReadyEvents := []
    fetchesStarted := [] }

/-- `TileDownloadManager.request_tile` (lines 223-250): a persistent-cache
hit emits the tile immediately; a miss enqueues the key and adds it to the
in-flight set only when the key is in neither the in-flight set nor the
queue. -/
def requestTile (m : TileDownloadManager) (k : TileKey) :
    TileDownloadManager :=
  if k ∈ m.persistentCacheKeys then
    { m with cacheHits := m.cacheHits + 1
             tileReadyEvents := m.tileReadyEvents ++ [k] }
  else
    let m1 := { m with cacheMisses := m.cacheMisses + 1 }
    if k ∈ m1.activeDownloads then m1
    else if k ∈ m1.downloadQueue then m1
    else { m1 with downloadQueue := m1.downloadQueue ++ [k]
                   activeDownloads := m1.activeDownloads ++ [k] }

/-- One step of `TileDownloadManager.run`: pop the queue front and submit
its download. -/
def popNextDownload (m : TileDownloadManager) :
    Option (TileKey × TileDownloadManager) :=
  match m.downloadQueue with
  | [] => none
  | k :: rest =>
      some (k, { m with downloadQueue := rest
                        fetchesStarted := m.fetchesStarted ++ [k] })

/-- `TileDownloadManager._download_complete` (lines 354-358): discards the
key from the in-flight set, on success and on failure alike. -/
def downloadComplete (m : TileDownloadManager) (k : TileKey) :
    TileDownloadManager :=
  { m with activeDownloads := m.activeDownloads.filter (fun k2 => decide (k2 ≠ k)) }

end TileDownloadManager

namespace ProfessionalGCSMap

/-- The eviction batch size in `_on_tile_ready`:
`min(50, len(self.tile_cache) // 4)`. -/
def evictCount (len : Nat) : Nat := min 50 (len / 4)

/-- The in-memory tile cache update of `ProfessionalGCSMap._on_tile_ready`
(lines 609-618), on the cache viewed as its keys in least-recently-used
order (front = oldest): when the size has reached the cleanup threshold the
oldest `evictCount` entries are removed in one pass, then the new key is
stored and moved to the most-recent end. -/
def onTileReady (threshold : Nat) (cache : List TileKey) (k : TileKey) :
    List TileKey :=
  let c1 := if threshold ≤ cache.length then cache.drop (evictCount cache.length)
            else cache
  c1.filter (fun k2 => decide (k2 ≠ k)) ++ [k]

/-- `config` default for `map.cache_cleanup_threshold`. -/
def cacheCleanupThreshold : Nat := 450

end ProfessionalGCSMap

/-- `ProfessionalGCSMap._deg2tile` (lines 509-515), idealised over the real
numbers: latitude/longitude in degrees to fractional Web Mercator tile
coordinates at the given zoom. -/
noncomputable def deg2tile (latDeg lonDeg : ℝ) (zoom : ℕ) : ℝ × ℝ :=
  let latRad := latDeg * (Real.pi / 180)
  let n : ℝ := 2 ^ zoom
  ((lonDeg + 180) / 360 * n,
   (1 - Real.arsinh (Real.tan latRad) / Real.pi) / 2 * n)

/-- `ProfessionalGCSMap._tile2deg` (lines 517-523), idealised over the real
numbers: fractional tile coordinates back to latitude/longitude degrees. -/
noncomputable def tile2deg (x y : ℝ) (zoom : ℕ) : ℝ × ℝ :=
  let n : ℝ := 2 ^ zoom
  let lonDeg := x / n * 360 - 180
  let latRad := Real.arctan (Real.sinh (Real.pi * (1 - 2 * y / n)))
  (latRad * (180 / Real.pi), lonDeg)

/-- The shutdown ordering asserted by the specification, as a proposition
about the action trace of `MavlinkWorker.stop`: a disconnect request comes
strictly before the loop-termination signal, and the trace waits on the
thread (join). -/
def stopClaimOrdering : Prop :=
  (∃ i j : Fin MavlinkWorker.stopActions.length, i < j ∧
      MavlinkWorker.stopActions.get i = MavlinkWorker.StopAction.doDisconnectCall ∧
      MavlinkWorker.stopActions.get j = MavlinkWorker.StopAction.setRunningFalse) ∧
  MavlinkWorker.StopAction.joinThread ∈ MavlinkWorker.stopActions

/-- A concrete worker that has an open link and believes it is connected,
with an old heartbeat. -/
def sampleConnectedWorker : WorkerState :=
  { initWorker with conn := some { modeMapping := [] }, connected := true }

/-- A concrete registry entry, as `add_drone` would build it for port COM3. -/
def sampleDrone : DroneConnection :=
  { droneId := "drone_1"
    name := "COM3"
    port := "COM3"
    baud := 57600
    worker := { initWorker with device := some "COM3" }
    color := "#FF0000"
    connected := false
    armed := TValue.bool false
    telemetry := defaultTelemetry }

/-- A concrete registry holding `sampleDrone` under id drone_1. -/
def sampleManager : DroneManager :=
  { maxDrones := 2
    drones := [("drone_1", sampleDrone)]
    nextDroneNumber := 2 }

/-! ## Theorems -/

theorem alGet_alSet_self {κ α : Type} [DecidableEq κ]
    (l : List (κ × α)) (k : κ) (v : α) : alGet (alSet l k v) k = some v := by
  induction l with
  | nil => simp [alSet, alGet]
  | cons p rest ih =>
      obtain ⟨k2, v2⟩ := p
      by_cases h : k2 = k
      · simp [alSet, alGet, h]
      · simp [alSet, alGet, h, ih]

theorem alGet_alSet_ne {κ α : Type} [DecidableEq κ]
    (l : List (κ × α)) (k k2 : κ) (v : α) (h : k ≠ k2) :
    alGet (alSet l k2 v) k = alGet l k := by
  have hne : ¬ k2 = k := fun hh => h hh.symm
  induction l with
  | nil => simp [alSet, alGet, hne]
  | cons p rest ih =>
      obtain ⟨k3, v3⟩ := p
      by_cases h3 : k3 = k2
      · subst h3
        simp [alSet, alGet, hne]
      · by_cases h4 : k3 = k
        · simp [alSet, alGet, h3, h4, h]
        · simp [alSet, alGet, h3, h4, ih]

theorem dictUpdate_single {κ α : Type} [DecidableEq κ]
    (base : List (κ × α)) (k : κ) (v : α) :
    dictUpdate base [(k, v)] = alSet base k v := by
  simp [dictUpdate]

theorem addDroneIter_spec (maxDrones k : Nat) :
    (DroneManager.addDroneIter maxDrones k).drones.length = min k maxDrones ∧
    (DroneManager.addDroneIter maxDrones k).maxDrones = maxDrones := by
  induction k with
  | zero => simp [DroneManager.addDroneIter, DroneManager.mkDroneManager]
  | succ k ih =>
      obtain ⟨hlen, hmax⟩ := ih
      simp only [DroneManager.addDroneIter, DroneManager.addDrone]
      by_cases h : (DroneManager.addDroneIter maxDrones k).maxDrones ≤
          (DroneManager.addDroneIter maxDrones k).drones.length
      · rw [if_pos h]
        refine ⟨?_, hmax⟩
        rw [hlen]
        rw [hlen, hmax] at h
        omega
      · rw [if_neg h]
        refine ⟨?_, hmax⟩
        rw [hlen, hmax] at h
        simp only [List.length_append, List.length_cons, List.length_nil, hlen]
        omega

/-- Claim C5: from the empty registry, `add_drone` succeeds exactly
`max_drones` times in a row; the following call returns no identifier and
leaves the registry, including the id counter, unchanged; the capacity
invariant `count ≤ max_drones` holds after every add and remove; and
`can_add_drone` is exactly the query `count < max_drones`. -/
theorem add_drone_capacity_law (maxDrones k : Nat) :
    ((DroneManager.addDroneIter maxDrones k).drones.length = min k maxDrones) ∧
    (k < maxDrones →
      ((DroneManager.addDroneIter maxDrones k).addDrone "COM3" 57600 none).1.isSome
        = true) ∧
    ((DroneManager.addDroneIter maxDrones maxDrones).addDrone "COM3" 57600 none =
      (none, DroneManager.addDroneIter maxDrones maxDrones)) ∧
    (∀ m : DroneManager, m.canAddDrone = decide (m.drones.length < m.maxDrones)) ∧
    (∀ m : DroneManager, ∀ id : String,
      (m.removeDrone id).2.drones.length ≤ m.drones.length) ∧
    (∀ j : Nat, (DroneManager.addDroneIter maxDrones j).drones.length ≤ maxDrones) := by
  obtain ⟨hlen, hmax⟩ := addDroneIter_spec maxDrones k
  refine ⟨hlen, ?_, ?_, ?_, ?_, ?_⟩
  · intro hk
    simp only [DroneManager.addDrone, hmax, hlen]
    rw [if_neg (by omega)]
    rfl
  · obtain ⟨hlen2, hmax2⟩ := addDroneIter_spec maxDrones maxDrones
    simp only [DroneManager.addDrone, hmax2, hlen2]
    rw [if_pos (by omega)]
  · intro m
    rfl
  · intro m id
    cases h : alGet m.drones id with
    | none => simp [DroneManager.removeDrone, h]
    | some d =>
        simp only [DroneManager.removeDrone, h, alErase]
        exact List.length_filter_le _ _
  · intro j
    obtain ⟨hlenj, _⟩ := addDroneIter_spec maxDrones j
    rw [hlenj]
    omega

/-- Concrete instance of claim C5 at the default capacity 2: the second
`add_drone` call still succeeds. -/
theorem add_drone_capacity_witness :
    ((DroneManager.addDroneIter 2 1).addDrone "COM3" 57600 none).1.isSome = true :=
  (add_drone_capacity_law 2 1).2.1 (by decide)

/-- Claim C4: a second `request_tile` for a key that is already queued or in
flight changes neither the queue, nor the in-flight set, nor the submitted
downloads; after two requests the queue holds the key exactly once;
`_download_complete` removes the key from the in-flight set; and a key that
is in none of the cache, the in-flight set and the queue is enqueued again
by a later request. -/
theorem request_tile_dedup (m : TileDownloadManager) (k : TileKey)
    (hc : k ∉ m.persistentCacheKeys) (ha : k ∉ m.activeDownloads)
    (hq : k ∉ m.downloadQueue) :
    (((m.requestTile k).requestTile k).downloadQueue =
        (m.requestTile k).downloadQueue ∧
     ((m.requestTile k).requestTile k).activeDownloads =
        (m.requestTile k).activeDownloads ∧
     ((m.requestTile k).requestTile k).fetchesStarted =
        (m.requestTile k).fetchesStarted) ∧
    ((m.requestTile k).requestTile k).downloadQueue.count k = 1 ∧
    k ∈ ((m.requestTile k).requestTile k).activeDownloads ∧
    (∀ m2 : TileDownloadManager, k ∉ (m2.downloadComplete k).activeDownloads) ∧
    (∀ m3 : TileDownloadManager, k ∉ m3.persistentCacheKeys →
      k ∈ m3.activeDownloads →
      ((m3.requestTile k).downloadQueue = m3.downloadQueue ∧
       (m3.requestTile k).activeDownloads = m3.activeDownloads ∧
       (m3.requestTile k).fetchesStarted = m3.fetchesStarted)) ∧
    (∀ m4 : TileDownloadManager, k ∉ m4.persistentCacheKeys →
      k ∉ m4.activeDownloads → k ∉ m4.downloadQueue →
      k ∈ (m4.requestTile k).downloadQueue) := by
  have hstep : m.requestTile k =
      { m with cacheMisses := m.cacheMisses + 1
               downloadQueue := m.downloadQueue ++ [k]
               activeDownloads := m.activeDownloads ++ [k] } := by
    simp [TileDownloadManager.requestTile, hc, ha, hq]
  have hmem : k ∈ (m.requestTile k).activeDownloads := by
    rw [hstep]
    simp
  have hstep2 : (m.requestTile k).requestTile k =
      { m.requestTile k with cacheMisses := (m.requestTile k).cacheMisses + 1 } := by
    rw [hstep]
    simp [TileDownloadManager.requestTile, hc]
  refine ⟨by rw [hstep2]; exact ⟨rfl, rfl, rfl⟩, ?_, ?_, ?_, ?_, ?_⟩
  · rw [hstep2, hstep]
    simp [List.count_append, List.count_eq_zero.mpr hq]
  · rw [hstep2]
    exact hmem
  · intro m2
    simp [TileDownloadManager.downloadComplete]
  · intro m3 hc3 ha3
    simp [TileDownloadManager.requestTile, hc3, ha3]
  · intro m4 hc4 ha4 hq4
    simp [TileDownloadManager.requestTile, hc4, ha4, hq4]

/-- Concrete instance of claim C4: the duplicate request for an
OpenStreetMap tile on an idle manager leaves one queue entry. -/
theorem request_tile_dedup_witness :
    ((((TileDownloadManager.mkManager []).requestTile ⟨"OpenStreetMap", 12, 1, 2⟩).requestTile
        ⟨"OpenStreetMap", 12, 1, 2⟩).downloadQueue.count ⟨"OpenStreetMap", 12, 1, 2⟩) = 1 :=
  (request_tile_dedup (TileDownloadManager.mkManager []) ⟨"OpenStreetMap", 12, 1, 2⟩
    (by simp [TileDownloadManager.mkManager])
    (by simp [TileDownloadManager.mkManager])
    (by simp [TileDownloadManager.mkManager])).2.1

theorem onTileReady_length_le (threshold : Nat) (h4 : 4 ≤ threshold)
    (cache : List TileKey) (k : TileKey) (hlen : cache.length ≤ threshold) :
    (ProfessionalGCSMap.onTileReady threshold cache k).length ≤ threshold := by
  unfold ProfessionalGCSMap.onTileReady
  by_cases h : threshold ≤ cache.length
  · rw [if_pos h]
    have hEq : cache.length = threshold := le_antisymm hlen h
    have hev : 1 ≤ ProfessionalGCSMap.evictCount cache.length := by
      unfold ProfessionalGCSMap.evictCount
      rw [hEq]
      have : 1 ≤ threshold / 4 := by omega
      omega
    have hdroplen : (cache.drop (ProfessionalGCSMap.evictCount cache.length)).length =
        cache.length - ProfessionalGCSMap.evictCount cache.length := List.length_drop _ _
    have hfil := List.length_filter_le (fun k2 => decide (k2 ≠ k))
      (cache.drop (ProfessionalGCSMap.evictCount cache.length))
    have hevle : ProfessionalGCSMap.evictCount cache.length ≤ cache.length := by
      unfold ProfessionalGCSMap.evictCount
      omega
    simp only [List.length_append, List.length_cons, List.length_nil]
    omega
  · rw [if_neg h]
    have hlt : cache.length < threshold := lt_of_not_ge h
    have hfil := List.length_filter_le (fun k2 => decide (k2 ≠ k)) cache
    simp only [List.length_append, List.length_cons, List.length_nil]
    omega

theorem foldl_onTileReady_le (threshold : Nat) (h4 : 4 ≤ threshold)
    (ks : List TileKey) :
    ∀ c : List TileKey, c.length ≤ threshold →
      (ks.foldl (ProfessionalGCSMap.onTileReady threshold) c).length ≤ threshold := by
  induction ks with
  | nil => intro c hc; simpa using hc
  | cons k ks ih =>
      intro c hc
      exact ih _ (onTileReady_length_le threshold h4 c k hc)

/-- Claim C6: for any cleanup threshold of at least 4 (the default is 450),
the insert-triggered eviction pass of `_on_tile_ready` removes the batch of
`min(50, size // 4)` least-recently-used entries in one pass, and the
in-memory cache size stays at or below the threshold after every insert,
in particular over any sustained sequence of inserts from the empty cache. -/
theorem tile_cache_bound (threshold : Nat) (h4 : 4 ≤ threshold) :
    (∀ cache : List TileKey, ∀ k : TileKey, cache.length ≤ threshold →
      (ProfessionalGCSMap.onTileReady threshold cache k).length ≤ threshold) ∧
    (∀ cache : List TileKey, ∀ k : TileKey, threshold ≤ cache.length →
      ProfessionalGCSMap.onTileReady threshold cache k =
        (cache.drop (ProfessionalGCSMap.evictCount cache.length)).filter
          (fun k2 => decide (k2 ≠ k)) ++ [k]) ∧
    (∀ ks : List TileKey,
      (ks.foldl (ProfessionalGCSMap.onTileReady threshold) []).length ≤ threshold) := by
  refine ⟨fun cache k hlen => onTileReady_length_le threshold h4 cache k hlen,
          fun cache k h => ?_,
          fun ks => foldl_onTileReady_le threshold h4 ks [] (by simp)⟩
  unfold ProfessionalGCSMap.onTileReady
  rw [if_pos h]

/-- Concrete instance of claim C6 at the default threshold 450: inserting
into an empty cache keeps the size within the threshold. -/
theorem tile_cache_bound_witness :
    (ProfessionalGCSMap.onTileReady 450 [] ⟨"OpenStreetMap", 12, 1, 2⟩).length ≤ 450 :=
  (tile_cache_bound 450 (by decide)).1 [] ⟨"OpenStreetMap", 12, 1, 2⟩ (by simp)

/-- Counterexample to claim C9 as stated: the action trace of
`MavlinkWorker.stop` does not put a disconnect before the loop-termination
signal, and it contains no join on the worker thread. -/
theorem stop_order_counterexample : ¬ stopClaimOrdering := by
  intro hcl
  obtain ⟨⟨i, j, hij, hi, hj⟩, hjoin⟩ := hcl
  revert hjoin
  decide

/-- Claim C9, amended: `stop` first signals loop termination by clearing
`_running`, then runs the disconnect synchronously, and returns without any
join or wait on the background thread; the state it returns has the running
flag cleared, the connection dropped and the connected flag cleared. -/
theorem stop_behavior :
    MavlinkWorker.stopActions =
      [MavlinkWorker.StopAction.setRunningFalse,
       MavlinkWorker.StopAction.doDisconnectCall] ∧
    MavlinkWorker.StopAction.joinThread ∉ MavlinkWorker.stopActions ∧
    (∀ w : WorkerState,
      (MavlinkWorker.stop w).running = false ∧
      (MavlinkWorker.stop w).conn = none ∧
      (MavlinkWorker.stop w).connected = false ∧
      (MavlinkWorker.stop w).outQueue =
        w.outQueue ++ [Event.status "Disconnected"]) := by
  refine ⟨rfl, by decide, fun w => ⟨rfl, rfl, rfl, rfl⟩⟩

/-- Counterexample to claim C2 as stated: immediately after `connect_drone`
returns, the connect command is still sitting unprocessed on the worker
control queue and the worker connected flag is still false, yet the registry
connected flag is already true — the registry flips at connect-request time,
before the link confirms. -/
theorem connect_drone_optimistic_counterexample :
    (alGet (DroneManager.connectDrone sampleManager "drone_1").1.drones "drone_1").map
      (fun d => (d.connected, d.worker.connected, d.worker.controlQueue)) =
      some (true, false, [WCommand.connect]) := by
  decide

/-- Claim C2, amended: `connect_drone` enqueues the connect command and sets
the registry connected flag to true immediately, at request time, before the
worker link confirms; the link flag itself becomes true only when the worker
later processes the command in `_do_connect` successfully. -/
theorem connect_drone_flag_at_request_time (m : DroneManager) (id : String)
    (hw : (alGet m.drones id).map (fun d => d.worker.connected) = some false) :
    (m.connectDrone id).2 = true ∧
    (alGet (m.connectDrone id).1.drones id).map DroneConnection.connected =
      some true ∧
    (alGet (m.connectDrone id).1.drones id).map (fun d => d.worker.connected) =
      some false ∧
    (alGet (m.connectDrone id).1.drones id).map (fun d => d.worker.controlQueue) =
      (alGet m.drones id).map (fun d => d.worker.controlQueue ++ [WCommand.connect]) ∧
    (∀ w : WorkerState, ∀ c : ConnState, ∀ t : ℚ, ∀ dev : String,
      w.device = some dev → (MavlinkWorker.doConnect w t (some c)).connected = true) := by
  cases hd : alGet m.drones id with
  | none => rw [hd] at hw; simp at hw
  | some d =>
      rw [hd] at hw
      have hwc : d.worker.connected = false := by
        simpa using hw
      have hrun : ∀ w0 : WorkerState,
          (if w0.running then w0 else { w0 with running := true }).connected =
            w0.connected ∧
          (if w0.running then w0 else { w0 with running := true }).controlQueue =
            w0.controlQueue := by
        intro w0
        by_cases h : w0.running <;> simp [h]
      set w1 : WorkerState := MavlinkWorker.connectCmd
        (if d.worker.running then d.worker
         else { d.worker with running := true }) with hw1def
      set d1 : DroneConnection := { d with worker := w1, connected := true }
        with hd1def
      have hcd : m.connectDrone id =
          ({ m with drones := alSet m.drones id d1 }, true) := by
        simp only [DroneManager.connectDrone, hd]
      rw [hcd]
      refine ⟨rfl, ?_, ?_, ?_, ?_⟩
      · rw [alGet_alSet_self]
        rfl
      · rw [alGet_alSet_self]
        exact congrArg some ((hrun d.worker).1.trans hwc)
      · rw [alGet_alSet_self]
        exact congrArg some
          (congrArg (fun q => q ++ [WCommand.connect]) (hrun d.worker).2)
      · intro w c t dev hdev
        simp [MavlinkWorker.doConnect, hdev]

/-- Concrete instance of the amended claim C2 on `sampleManager`. -/
theorem connect_drone_flag_witness :
    (DroneManager.connectDrone sampleManager "drone_1").2 = true ∧
    (alGet (DroneManager.connectDrone sampleManager "drone_1").1.drones
      "drone_1").map DroneConnection.connected = some true ∧
    (alGet (DroneManager.connectDrone sampleManager "drone_1").1.drones
      "drone_1").map (fun d => d.worker.connected) = some false ∧
    (alGet (DroneManager.connectDrone sampleManager "drone_1").1.drones
      "drone_1").map (fun d => d.worker.controlQueue) =
      (alGet sampleManager.drones "drone_1").map
        (fun d => d.worker.controlQueue ++ [WCommand.connect]) ∧
    (∀ w : WorkerState, ∀ c : ConnState, ∀ t : ℚ, ∀ dev : String,
      w.device = some dev → (MavlinkWorker.doConnect w t (some c)).connected = true) :=
  connect_drone_flag_at_request_time sampleManager "drone_1" (by decide)

/-- Claim C8: `update_telemetry` merges incoming fields into the stored
category record, creating the category when absent and touching only the
keys present in the update: writing lat 12 and then lon 34 to the gps
category leaves a record holding both values, with every other gps key
unchanged. -/
theorem update_telemetry_merge (m : DroneManager) (id : String)
    (d : DroneConnection) (g : List (String × TValue))
    (hd : alGet m.drones id = some d)
    (hg : alGet d.telemetry "gps" = some (TEntry.record g)) :
    ∃ m2 : DroneManager,
      (m.updateTelemetry id "gps" [("lat", TValue.num 12)]).bind
        (fun m1 => m1.updateTelemetry id "gps" [("lon", TValue.num 34)]) = some m2 ∧
      ∃ g2 : List (String × TValue),
        DroneManager.getTelemetry m2 id "gps" = some (TEntry.record g2) ∧
        alGet g2 "lat" = some (TValue.num 12) ∧
        alGet g2 "lon" = some (TValue.num 34) ∧
        ∀ key : String, key ≠ "lat" → key ≠ "lon" → alGet g2 key = alGet g key := by
  have hns : ¬ ("gps" : String) = "status" := by decide
  have hll : ("lat" : String) ≠ "lon" := by decide
  set g1 := alSet g "lat" (TValue.num 12) with hg1def
  set d1 : DroneConnection :=
    { d with telemetry := alSet d.telemetry "gps" (TEntry.record g1) } with hd1def
  have hstep1 : m.updateTelemetry id "gps" [("lat", TValue.num 12)] =
      some { m with drones := alSet m.drones id d1 } := by
    simp only [DroneManager.updateTelemetry, hd, hg, dictUpdate_single, if_neg hns]
  set g2 := alSet g1 "lon" (TValue.num 34) with hg2def
  set d2 : DroneConnection :=
    { d1 with telemetry := alSet d1.telemetry "gps" (TEntry.record g2) } with hd2def
  have hd1got : alGet (alSet m.drones id d1) id = some d1 := alGet_alSet_self _ _ _
  have hd1tel : alGet d1.telemetry "gps" = some (TEntry.record g1) := by
    rw [hd1def]
    exact alGet_alSet_self _ _ _
  have hstep2 :
      DroneManager.updateTelemetry { m with drones := alSet m.drones id d1 }
        id "gps" [("lon", TValue.num 34)] =
      some { m with drones := alSet (alSet m.drones id d1) id d2 } := by
    simp only [DroneManager.updateTelemetry, hd1got, hd1tel, dictUpdate_single,
      if_neg hns]
  refine ⟨{ m with drones := alSet (alSet m.drones id d1) id d2 },
    by rw [hstep1, Option.some_bind, hstep2], g2, ?_, ?_, ?_, ?_⟩
  · simp only [DroneManager.getTelemetry, alGet_alSet_self]
  · rw [hg2def, alGet_alSet_ne _ _ _ _ hll, hg1def]
    exact alGet_alSet_self _ _ _
  · rw [hg2def]
    exact alGet_alSet_self _ _ _
  · intro key hk1 hk2
    rw [hg2def, alGet_alSet_ne _ _ _ _ hk2, hg1def, alGet_alSet_ne _ _ _ _ hk1]

/-- Concrete instance of claim C8 on `sampleManager`: the two writes merge
into the default gps record. -/
theorem update_telemetry_merge_witness :
    ∃ m2 : DroneManager,
      (sampleManager.updateTelemetry "drone_1" "gps" [("lat", TValue.num 12)]).bind
        (fun m1 => m1.updateTelemetry "drone_1" "gps" [("lon", TValue.num 34)]) =
        some m2 ∧
      ∃ g2 : List (String × TValue),
        DroneManager.getTelemetry m2 "drone_1" "gps" = some (TEntry.record g2) ∧
        alGet g2 "lat" = some (TValue.num 12) ∧
        alGet g2 "lon" = some (TValue.num 34) ∧
        ∀ key : String, key ≠ "lat" → key ≠ "lon" →
          alGet g2 key = alGet [("fix_type", TValue.num 0),
            ("satellites", TValue.num 0), ("hdop", TValue.num 0),
            ("vdop", TValue.num 0)] key :=
  update_telemetry_merge sampleManager "drone_1" sampleDrone
    [("fix_type", TValue.num 0), ("satellites", TValue.num 0),
     ("hdop", TValue.num 0), ("vdop", TValue.num 0)]
    (by decide) (by decide)

theorem runHeartbeatChecks_frozen (w : WorkerState) (h : w.connected = false) :
    ∀ (ts : List ℚ) (lastCheck : ℚ),
      (MavlinkWorker.runHeartbeatChecks w lastCheck ts).1 = w := by
  intro ts
  induction ts with
  | nil => intro c; rfl
  | cons t ts ih =>
      intro c
      have hstep1 : (MavlinkWorker.heartbeatCheck w c t).1 = w := by
        unfold MavlinkWorker.heartbeatCheck
        split
        · simp [h]
        · rfl
      simp only [MavlinkWorker.runHeartbeatChecks]
      rw [hstep1]
      exact ih _

/-- Claim C1: a connected link with an open connection that stops receiving
heartbeats transitions to disconnected at the first watchdog check past the
timeout, emitting exactly one error event immediately followed by exactly
one Disconnected status event; all later loop iterations, with the
heartbeat still absent, add nothing more to the event stream. -/
theorem heartbeat_timeout_single_disconnect (w : WorkerState)
    (lastCheck t0 : ℚ) (ts : List ℚ)
    (hconn : w.conn.isSome = true) (hc : w.connected = true)
    (hcheck : MavlinkWorker.heartbeatCheckIntervalSec < t0 - lastCheck)
    (htimeout : MavlinkWorker.heartbeatTimeout < t0 - w.lastHeartbeat) :
    ((MavlinkWorker.runHeartbeatChecks w lastCheck (t0 :: ts)).1.connected = false) ∧
    (MavlinkWorker.isConnected
      (MavlinkWorker.runHeartbeatChecks w lastCheck (t0 :: ts)).1 = false) ∧
    ((MavlinkWorker.runHeartbeatChecks w lastCheck (t0 :: ts)).1.outQueue =
      w.outQueue ++ [Event.error "Heartbeat timeout - connection lost",
                     Event.status "Disconnected"]) := by
  have hstep : MavlinkWorker.heartbeatCheck w lastCheck t0 =
      ({ w with connected := false
                outQueue := w.outQueue ++
                  [Event.error "Heartbeat timeout - connection lost",
                   Event.status "Disconnected"] }, t0) := by
    unfold MavlinkWorker.heartbeatCheck
    rw [if_pos ⟨hconn, hcheck⟩, if_pos ⟨hc, htimeout⟩]
  have hfrozen := runHeartbeatChecks_frozen
    { w with connected := false
             outQueue := w.outQueue ++
               [Event.error "Heartbeat timeout - connection lost",
                Event.status "Disconnected"] } rfl ts t0
  simp only [MavlinkWorker.runHeartbeatChecks]
  rw [hstep]
  exact ⟨by rw [hfrozen], by rw [MavlinkWorker.isConnected, hfrozen],
         by rw [hfrozen]⟩

/-- Concrete instance of claim C1: a worker whose last heartbeat is 4
seconds old at the first check and that then runs one more iteration. -/
theorem heartbeat_timeout_single_disconnect_witness :
    ((MavlinkWorker.runHeartbeatChecks sampleConnectedWorker 0 [4, 5]).1.connected
      = false) ∧
    (MavlinkWorker.isConnected
      (MavlinkWorker.runHeartbeatChecks sampleConnectedWorker 0 [4, 5]).1 = false) ∧
    ((MavlinkWorker.runHeartbeatChecks sampleConnectedWorker 0 [4, 5]).1.outQueue =
      sampleConnectedWorker.outQueue ++
        [Event.error "Heartbeat timeout - connection lost",
         Event.status "Disconnected"]) :=
  heartbeat_timeout_single_disconnect sampleConnectedWorker 0 4 [5]
    rfl rfl (by norm_num [MavlinkWorker.heartbeatCheckIntervalSec])
    (by norm_num [MavlinkWorker.heartbeatTimeout, sampleConnectedWorker, initWorker])

theorem trackRate_outQueue (w : WorkerState) (t : ℚ) (mtype : String) :
    ∃ l : List Event,
      (MavlinkWorker.trackRate w t mtype).outQueue = w.outQueue ++ l ∧
      l.any Event.isVfrHud = false := by
  simp only [MavlinkWorker.trackRate]
  split
  · refine ⟨_, rfl, ?_⟩
    split <;> rfl
  · exact ⟨[], by simp, rfl⟩

theorem vfrHud_emit_eq_cond (w : WorkerState) (t : ℚ)
    (airspeed groundspeed alt heading : FloatVal) :
    ((MavlinkWorker.processMessage w t
        (Message.vfrHud airspeed groundspeed alt heading)).outQueue.drop
        w.outQueue.length).any Event.isVfrHud =
      (airspeed.isFinite && groundspeed.isFinite && alt.isFinite &&
       heading.isFinite &&
       FloatVal.le (FloatVal.finite 0) airspeed &&
       FloatVal.le (FloatVal.finite 0) groundspeed &&
       FloatVal.le (FloatVal.finite 0) heading &&
       FloatVal.le heading (FloatVal.finite 360)) := by
  obtain ⟨l, hl, hany⟩ := trackRate_outQueue w t "VFR_HUD"
  simp only [MavlinkWorker.processMessage, Message.typ]
  split
  next h =>
    try dsimp only
    rw [hl, List.append_assoc, List.drop_left, List.any_append, hany, h]
    rfl
  next h =>
    try dsimp only
    rw [hl, List.drop_left, hany]
    rw [Bool.not_eq_true] at h
    exact h.symm

/-- Counterexample to claim C3 as stated: a VFR_HUD message whose heading is
exactly 360 is accepted by the code (the source bound is the closed
`0 <= heading <= 360`) and produces a vfr_hud event, while the claimed
predicate with heading in `[0, 360)` rejects it. -/
theorem vfr_hud_heading_360_counterexample :
    (((MavlinkWorker.processMessage initWorker 0
        (Message.vfrHud (FloatVal.finite 0) (FloatVal.finite 0)
          (FloatVal.finite 100) (FloatVal.finite 360))).outQueue.drop
        initWorker.outQueue.length).any Event.isVfrHud) = true ∧
    vfrHudClaimedValid (FloatVal.finite 0) (FloatVal.finite 0)
      (FloatVal.finite 100) (FloatVal.finite 360) = false := by
  constructor
  · rw [vfrHud_emit_eq_cond]
    decide
  · decide

/-- Claim C3, amended: a vfr_hud event is emitted for an inbound VFR_HUD
message exactly when airspeed, groundspeed, altitude and heading are all
finite, airspeed and groundspeed are non-negative and the heading lies in
the closed interval `[0, 360]` — heading exactly 360 is accepted, not
dropped. -/
theorem vfr_hud_validation_iff (w : WorkerState) (t : ℚ)
    (airspeed groundspeed alt heading : FloatVal) :
    ((MavlinkWorker.processMessage w t
        (Message.vfrHud airspeed groundspeed alt heading)).outQueue.drop
        w.outQueue.length).any Event.isVfrHud =
      (airspeed.isFinite && groundspeed.isFinite && alt.isFinite &&
       heading.isFinite &&
       FloatVal.le (FloatVal.finite 0) airspeed &&
       FloatVal.le (FloatVal.finite 0) groundspeed &&
       FloatVal.le (FloatVal.finite 0) heading &&
       FloatVal.le heading (FloatVal.finite 360)) :=
  vfrHud_emit_eq_cond w t airspeed groundspeed alt heading

theorem recvMatchAck_append (pre rest : List Message) (ack : Message)
    (hpre : ∀ m ∈ pre, m.typ ≠ "COMMAND_ACK") (hack : ack.typ = "COMMAND_ACK") :
    MavlinkWorker.recvMatchAck (pre ++ ack :: rest) = (some ack, rest) := by
  induction pre with
  | nil => simp [MavlinkWorker.recvMatchAck, hack]
  | cons m pre ih =>
      have hm : ¬ m.typ = "COMMAND_ACK" := hpre m (by simp)
      simp only [List.cons_append, MavlinkWorker.recvMatchAck, if_neg hm]
      exact ih (fun x hx => hpre x (by simp [hx]))

theorem doArmDisarm_spec (w : WorkerState) (c : ConnState) (force : Bool)
    (stream : List Message) (hconn : w.conn = some c) :
    ∃ e1 e2 : Event,
      MavlinkWorker.doArmDisarm w force stream =
        ({ w with outQueue := (w.outQueue ++ [e1]) ++ [e2] },
         (MavlinkWorker.recvMatchAck stream).2) ∧
      e1.isStatusOrError = true ∧ e2.isStatusOrError = true := by
  have hsend : (if w.isArmed then Event.status "Sending Disarm command..."
      else if force then Event.status "Sending Force Arm command..."
      else Event.status "Sending Arm command...").isStatusOrError = true := by
    split
    · rfl
    · split <;> rfl
  unfold MavlinkWorker.doArmDisarm
  rw [hconn]
  cases hm : MavlinkWorker.recvMatchAck stream with
  | mk ackOpt rest =>
      cases ackOpt with
      | none => exact ⟨_, _, rfl, hsend, rfl⟩
      | some m =>
          cases m with
          | commandAck cmd result =>
              by_cases h1 : cmd = MavlinkWorker.mavCmdComponentArmDisarm
              · by_cases h2 : result = MavlinkWorker.mavResultAccepted
                · refine ⟨_, Event.status "Arm/Disarm command accepted by FCU.",
                    ?_, hsend, rfl⟩
                  dsimp only
                  rw [if_pos h1, if_pos h2]
                · refine ⟨_, Event.error "Arm/Disarm command rejected",
                    ?_, hsend, rfl⟩
                  dsimp only
                  rw [if_pos h1, if_neg h2]
              · refine ⟨_, Event.error "No acknowledgment for Arm/Disarm command.",
                  ?_, hsend, rfl⟩
                dsimp only
                rw [if_neg h1]
          | heartbeat a b => exact ⟨_, _, rfl, hsend, rfl⟩
          | statustext a => exact ⟨_, _, rfl, hsend, rfl⟩
          | attitude a b cc => exact ⟨_, _, rfl, hsend, rfl⟩
          | vfrHud a b cc dd => exact ⟨_, _, rfl, hsend, rfl⟩
          | gpsRawInt a b cc dd ee ff => exact ⟨_, _, rfl, hsend, rfl⟩
          | globalPositionInt a b cc => exact ⟨_, _, rfl, hsend, rfl⟩
          | sysStatus a b cc => exact ⟨_, _, rfl, hsend, rfl⟩
          | other a => exact ⟨_, _, rfl, hsend, rfl⟩

/-- Claim C10: while `_do_arm_disarm` blocks on its COMMAND_ACK wait, every
other inbound message of the window is consumed without being processed: the
last-heartbeat timestamp and the message counters are untouched, the
consumed prefix disappears from the stream, and the only events added are
plain status/error strings — no telemetry event is emitted for the lost
messages. -/
theorem arm_ack_wait_drops_messages (w : WorkerState) (c : ConnState)
    (force : Bool) (pre rest : List Message) (ack : Message)
    (hconn : w.conn = some c)
    (hpre : ∀ m ∈ pre, m.typ ≠ "COMMAND_ACK")
    (hack : ack.typ = "COMMAND_ACK") :
    ((MavlinkWorker.doArmDisarm w force (pre ++ ack :: rest)).1.lastHeartbeat =
      w.lastHeartbeat) ∧
    ((MavlinkWorker.doArmDisarm w force (pre ++ ack :: rest)).1.messageCounts =
      w.messageCounts) ∧
    ((MavlinkWorker.doArmDisarm w force (pre ++ ack :: rest)).2 = rest) ∧
    (∀ e ∈ (MavlinkWorker.doArmDisarm w force (pre ++ ack :: rest)).1.outQueue.drop
        w.outQueue.length, e.isStatusOrError = true) := by
  obtain ⟨e1, e2, heq, h1, h2⟩ :=
    doArmDisarm_spec w c force (pre ++ ack :: rest) hconn
  have hrecv := recvMatchAck_append pre rest ack hpre hack
  rw [heq]
  refine ⟨rfl, rfl, by rw [hrecv], ?_⟩
  intro e he
  dsimp only at he
  rw [List.append_assoc, List.drop_left] at he
  simp only [List.mem_append, List.mem_singleton] at he
  rcases he with he | he <;> subst he
  · exact h1
  · exact h2

/-- Concrete instance of claim C10: a heartbeat and a valid VFR_HUD message
arriving during the acknowledgement wait are consumed and lost. -/
theorem arm_ack_wait_drops_messages_witness :
    ((MavlinkWorker.doArmDisarm sampleConnectedWorker false
        ([Message.heartbeat 0 0,
          Message.vfrHud (FloatVal.finite 1) (FloatVal.finite 1)
            (FloatVal.finite 10) (FloatVal.finite 90)] ++
         Message.commandAck 400 0 :: [])).1.lastHeartbeat =
      sampleConnectedWorker.lastHeartbeat) ∧
    ((MavlinkWorker.doArmDisarm sampleConnectedWorker false
        ([Message.heartbeat 0 0,
          Message.vfrHud (FloatVal.finite 1) (FloatVal.finite 1)
            (FloatVal.finite 10) (FloatVal.finite 90)] ++
         Message.commandAck 400 0 :: [])).1.messageCounts =
      sampleConnectedWorker.messageCounts) ∧
    ((MavlinkWorker.doArmDisarm sampleConnectedWorker false
        ([Message.heartbeat 0 0,
          Message.vfrHud (FloatVal.finite 1) (FloatVal.finite 1)
            (FloatVal.finite 10) (FloatVal.finite 90)] ++
         Message.commandAck 400 0 :: [])).2 = []) ∧
    (∀ e ∈ (MavlinkWorker.doArmDisarm sampleConnectedWorker false
        ([Message.heartbeat 0 0,
          Message.vfrHud (FloatVal.finite 1) (FloatVal.finite 1)
            (FloatVal.finite 10) (FloatVal.finite 90)] ++
         Message.commandAck 400 0 :: [])).1.outQueue.drop
        sampleConnectedWorker.outQueue.length, e.isStatusOrError = true) :=
  arm_ack_wait_drops_messages sampleConnectedWorker { modeMapping := [] } false
    [Message.heartbeat 0 0,
     Message.vfrHud (FloatVal.finite 1) (FloatVal.finite 1)
       (FloatVal.finite 10) (FloatVal.finite 90)]
    [] (Message.commandAck 400 0) rfl (by decide) rfl

/-- Claim C7: the lat/lon-to-tile and tile-to-lat/lon conversions are pure
functions and exact inverses of each other: for every valid latitude
(strictly between the poles), longitude and zoom, the round trip through
fractional tile coordinates recovers the original coordinates exactly, and
in particular within the 1e-9 degree tolerance the specification allows at
zoom at most 19. -/
theorem tile_roundtrip (latDeg lonDeg : ℝ) (zoom : ℕ)
    (h1 : -90 < latDeg) (h2 : latDeg < 90) :
    tile2deg (deg2tile latDeg lonDeg zoom).1 (deg2tile latDeg lonDeg zoom).2 zoom =
      (latDeg, lonDeg) ∧
    |(tile2deg (deg2tile latDeg lonDeg zoom).1 (deg2tile latDeg lonDeg zoom).2
        zoom).1 - latDeg| < 1e-9 ∧
    |(tile2deg (deg2tile latDeg lonDeg zoom).1 (deg2tile latDeg lonDeg zoom).2
        zoom).2 - lonDeg| < 1e-9 := by
  have hn : (2:ℝ) ^ zoom ≠ 0 := by positivity
  have hπ : Real.pi ≠ 0 := Real.pi_ne_zero
  have hpos : (0:ℝ) < Real.pi / 180 := by positivity
  have heq : tile2deg (deg2tile latDeg lonDeg zoom).1
      (deg2tile latDeg lonDeg zoom).2 zoom = (latDeg, lonDeg) := by
    simp only [deg2tile, tile2deg]
    have hkey : Real.pi *
        (1 - 2 * ((1 - Real.arsinh (Real.tan (latDeg * (Real.pi / 180))) / Real.pi)
          / 2 * (2:ℝ) ^ zoom) / (2:ℝ) ^ zoom) =
        Real.arsinh (Real.tan (latDeg * (Real.pi / 180))) := by
      field_simp
      ring
    have hb1 : -(Real.pi / 2) < latDeg * (Real.pi / 180) := by
      have h := mul_lt_mul_of_pos_right h1 hpos
      calc -(Real.pi / 2) = -90 * (Real.pi / 180) := by ring
        _ < latDeg * (Real.pi / 180) := h
    have hb2 : latDeg * (Real.pi / 180) < Real.pi / 2 := by
      have h := mul_lt_mul_of_pos_right h2 hpos
      calc latDeg * (Real.pi / 180) < 90 * (Real.pi / 180) := h
        _ = Real.pi / 2 := by ring
    rw [Prod.mk.injEq]
    constructor
    · rw [hkey, Real.sinh_arsinh, Real.arctan_tan hb1 hb2]
      field_simp
    · field_simp
      ring
  refine ⟨heq, ?_, ?_⟩
  · rw [heq]
    simp only [sub_self, abs_zero]
    norm_num
  · rw [heq]
    simp only [sub_self, abs_zero]
    norm_num

/-- Concrete instance of claim C7 at latitude 45, longitude 10, zoom 5. -/
theorem tile_roundtrip_witness :
    tile2deg (deg2tile 45 10 5).1 (deg2tile 45 10 5).2 5 = (45, 10) ∧
    |(tile2deg (deg2tile 45 10 5).1 (deg2tile 45 10 5).2 5).1 - 45| < 1e-9 ∧
    |(tile2deg (deg2tile 45 10 5).1 (deg2tile 45 10 5).2 5).2 - 10| < 1e-9 :=
  tile_roundtrip 45 10 5 (by norm_num) (by norm_num)

end AsraGcs


